import Mathlib

/-!
Verification of the WhatsApp image-relay service (`src/WhatsBot.py`) against its
natural-language specification.

The Python module is shallowly embedded: the two SQLite tables become lists of
records, every handler becomes a pure function from its request data (and the
outcomes of its external calls, which are passed in as parameters) to a new
database state plus a response.  Ambient time (`now_local()` / `today_str()`)
is passed in as a `Clock`.
-/

namespace WhatsBot

/-! ### String helpers

SQLite compares `TEXT` values by byte order, which for UTF-8 agrees with
code-point order, so `ORDER BY … DESC` is modelled by a lexicographic
comparison on the character list. -/

/-- Lexicographic less-or-equal on character lists (byte order of the UTF-8
encodings, as SQLite's default `TEXT` collation compares). -/
def lexLe : List Char → List Char → Bool
  | [], _ => true
  | _ :: _, [] => false
  | a :: as, b :: bs => if a = b then lexLe as bs else decide (a < b)

/-- String comparison used to model SQLite `ORDER BY` on `TEXT` columns. -/
def strLe (a b : String) : Bool := lexLe a.data b.data

/-- Descending order on a `TEXT` key extracted by `f`, modelling
`ORDER BY f(row) DESC`. -/
def geBy {α : Type} (f : α → String) (a b : α) : Prop := strLe (f b) (f a) = true

instance {α : Type} (f : α → String) : DecidableRel (geBy f) :=
  fun a b => instDecidableEqBool (strLe (f b) (f a)) true

/-- Python truthiness of an optional string: `None` and `""` are falsy. -/
def pyFalsy : Option String → Bool
  | none => true
  | some s => s == ""

/-- ASCII whitespace as stripped by Python's `str.strip()` (the claims only
involve ASCII input; Python additionally strips rare Unicode spaces). -/
def pySpace (c : Char) : Bool :=
  c == ' ' || c == '\t' || c == '\n' || c == '\r' || c == '\x0b' || c == '\x0c'

/-- Model of Python's `str.strip()`: drop whitespace from both ends. -/
def pyStrip (s : String) : String :=
  String.mk (((s.data.dropWhile pySpace).reverse.dropWhile pySpace).reverse)

/-! ### Data model (`init_db`)

`sent_images(ts, day, phone, name, message_id, status, status_ts)` with
`ts`, `day`, `phone` declared `NOT NULL` and the rest nullable; `message_id`
carries no uniqueness constraint (only the plain index
`idx_sent_images_msgid`).  `webhook_events` is the raw inbound-event log.
Rows are kept in rowid (insertion) order. -/

structure SentImage where
  ts : String
  day : String
  phone : String
  name : Option String
  message_id : Option String
  status : Option String
  status_ts : Option String
  deriving DecidableEq

structure WebhookEvent where
  ts : String
  day : String
  obj : Option String
  entry_id : Option String
  change_field : Option String
  event_type : Option String
  message_id : Option String
  status : Option String
  from_wa : Option String
  to_wa : Option String
  raw_json : String
  deriving DecidableEq

structure DB where
  sent_images : List SentImage
  webhook_events : List WebhookEvent
  deriving DecidableEq

/-- Ambient wall-clock values: `now_local().isoformat(timespec="seconds")`
and `today_str()`. -/
structure Clock where
  ts : String
  day : String
  deriving DecidableEq

/-! ### Database operations -/

/-- `record_send(phone, name, message_id)`: one `INSERT` into `sent_images`
with local time and day; the stored name is `name or None` (empty collapses
to NULL); `status` and `status_ts` start out NULL. -/
def record_send (c : Clock) (db : DB) (phone : String) (name : Option String)
    (message_id : Option String) : DB :=
  { db with
    sent_images := db.sent_images ++
      [{ ts := c.ts, day := c.day, phone := phone,
         name := match name with
           | none => none
           | some s => if s == "" then none else some s,
         message_id := message_id, status := none, status_ts := none }] }

/-- `update_status_by_message_id(message_id, status, status_ts, to_wa)`:
guarded no-op when `message_id` is falsy (`None` or `""`); otherwise
`UPDATE sent_images SET status = ?, status_ts = ? WHERE message_id = ?`,
which rewrites the two status columns of every row whose `message_id` equals
the argument (`NULL` never compares equal in SQL, matching `Option` here
since the guard rules out `some ""` aliasing). The `to_wa` argument is
accepted and ignored, as in the source. -/
def update_status_by_message_id (db : DB) (message_id : Option String)
    (status : Option String) (status_ts : Option String) : DB :=
  if pyFalsy message_id then db
  else
    { db with
      sent_images := db.sent_images.map fun r =>
        if r.message_id == message_id then
          { r with status := status, status_ts := status_ts }
        else r }

/-- `insert_webhook_event(...)`: one append-only `INSERT` into
`webhook_events` stamped with the local time and day. -/
def insert_webhook_event (c : Clock) (db : DB) (obj entry_id change_field
    event_type message_id status from_wa to_wa : Option String)
    (raw_json : String) : DB :=
  { db with
    webhook_events := db.webhook_events ++
      [{ ts := c.ts, day := c.day, obj := obj, entry_id := entry_id,
         change_field := change_field, event_type := event_type,
         message_id := message_id, status := status, from_wa := from_wa,
         to_wa := to_wa, raw_json := raw_json }] }

/-- `daily_counts(limit_days)`:
`SELECT day, COUNT(*) FROM sent_images GROUP BY day ORDER BY day DESC
LIMIT ?`, then reversed in Python for chronological charting. -/
def daily_counts (tbl : List SentImage) (limit_days : Nat) :
    List (String × Nat) :=
  let days := (tbl.map fun r => r.day).dedup
  let sorted := days.insertionSort (geBy id)
  ((sorted.take limit_days).map
    fun d => (d, (tbl.filter fun r => r.day == d).length)).reverse

/-- The projection produced by `rows_by_day`'s `SELECT` column list. -/
structure DayRow where
  ts : String
  phone : String
  name : Option String
  message_id : Option String
  status : Option String
  status_ts : Option String
  deriving DecidableEq

def projRow (r : SentImage) : DayRow :=
  { ts := r.ts, phone := r.phone, name := r.name, message_id := r.message_id,
    status := r.status, status_ts := r.status_ts }

/-- `rows_by_day(day)`: `SELECT ts, phone, name, message_id, status,
status_ts FROM sent_images WHERE day = ? ORDER BY ts DESC`.  SQLite does not
fix the relative order of equal `ts` values; insertion sort picks one such
order. -/
def rows_by_day (tbl : List SentImage) (day : String) : List DayRow :=
  ((tbl.filter fun r => r.day == day).map projRow).insertionSort
    (geBy fun r => r.ts)

/-! ### `GET /webhook` — subscription verification -/

/-- The `GET` branch of `webhook()`: query parameters are `Option`s
(`request.args.get` yields `None` when absent).  Returns the response body
and status code; the body echoes `challenge` on success, as the source does
with `return challenge, 200`. -/
def webhookVerify (verify_token : String)
    (mode token challenge : Option String) : Option String × Nat :=
  if mode == some "subscribe" && token == some verify_token then
    (challenge, 200)
  else (some "Forbidden", 403)

/-! ### `POST /webhook` — event ingestion

The vendor payload is embedded already destructured: each `statuses` item
carries the fields the handler extracts with `.get`, with `status_ts` being
the handler's parsed `datetime.utcfromtimestamp(int(ts_utc)).isoformat() +
"Z"` value (or `none` when the item's `timestamp` is absent or unparsable).
A non-list `statuses`/`messages` value in the JSON is the same as an empty
list in the source, so a plain list field is faithful. -/

structure StatusItem where
  id : Option String
  status : Option String
  status_ts : Option String
  recipient_id : Option String
  deriving DecidableEq

structure MsgItem where
  id : Option String
  from_wa : Option String
  deriving DecidableEq

structure ChangeValue where
  statuses : List StatusItem
  messages : List MsgItem
  metadata_phone_number_id : Option String
  deriving DecidableEq

structure Change where
  field : Option String
  value : ChangeValue
  /-- `json.dumps(ch, ensure_ascii=False)`: the serialized change fragment. -/
  raw : String
  deriving DecidableEq

structure Entry where
  id : Option String
  changes : List Change
  deriving DecidableEq

structure Payload where
  obj : Option String
  entries : List Entry
  deriving DecidableEq

/-- Body of the `for st in value.get("statuses", [])` loop: reconcile the
send record, then log the status event. -/
def processStatusItem (c : Clock) (obj entry_id field : Option String)
    (raw : String) (st : StatusItem) (db : DB) : DB :=
  let db1 := update_status_by_message_id db st.id st.status st.status_ts
  insert_webhook_event c db1 obj entry_id field (some "status") st.id
    st.status none st.recipient_id raw

/-- Body of the `for msg in value.get("messages", [])` loop: log an inbound
message event. -/
def processMsgItem (c : Clock) (obj entry_id field to_wa : Option String)
    (raw : String) (m : MsgItem) (db : DB) : DB :=
  insert_webhook_event c db obj entry_id field (some "message") m.id none
    m.from_wa to_wa raw

def processChange (c : Clock) (obj entry_id : Option String) (db : DB)
    (ch : Change) : DB :=
  let db1 := ch.value.statuses.foldl
    (fun d st => processStatusItem c obj entry_id ch.field ch.raw st d) db
  ch.value.messages.foldl
    (fun d m => processMsgItem c obj entry_id ch.field
      ch.value.metadata_phone_number_id ch.raw m d) db1

def processEntry (c : Clock) (obj : Option String) (db : DB) (e : Entry) :
    DB :=
  e.changes.foldl (processChange c obj e.id) db

/-- The `POST` branch of `webhook()`.  `parsed` is the result of
`request.get_json(force=True, silent=True)`: `none` stands for a missing or
unparseable (or otherwise falsy) body, in which case only a raw `"unknown"`
event is logged.  `raw_body` is `request.data` decoded.  Both the normal
path and the catch-all `except` return `("OK", 200)`, so the model's
response is that constant in every branch. -/
def webhookPost (c : Clock) (parsed : Option Payload) (raw_body : String)
    (db : DB) : DB × String × Nat :=
  match parsed with
  | none =>
      (insert_webhook_event c db none none none (some "unknown") none none
        none none raw_body, ("OK", 200))
  | some data =>
      (data.entries.foldl (processEntry c data.obj) db, ("OK", 200))

/-! ### `POST /send-image` -/

inductive HttpResult where
  /-- `jsonify(result)` with status 200: the vendor send-response JSON,
  carried opaquely as a string. -/
  | ok (body : String)
  /-- `jsonify(error=msg), code`. -/
  | err (msg : String) (code : Nat)
  deriving DecidableEq

/-- `send_image()`.  `hasFile`/`hasTo` are the two presence checks;
`upload` and `send` are the outcomes of the two outbound Graph API calls
(`Except.error e` standing for a raised exception rendered as `str(e)`),
`send` yielding the response JSON together with the extracted `wamid`;
`recordOk` is whether the optional `init_db(); migrate_db();
record_send(...)` bookkeeping step runs without raising — when it raises,
the error is only printed and the database is left as it was. -/
def send_image (c : Clock) (hasFile hasTo : Bool) (to_raw : String)
    (name_raw : Option String) (upload : Except String String)
    (send : Except String (String × Option String)) (recordOk : Bool)
    (db : DB) : DB × HttpResult :=
  if !(hasFile && hasTo) then (db, .err "Missing file or to" 400)
  else
    let phone_number := pyStrip to_raw
    let user_name := pyStrip (name_raw.getD "")
    match upload with
    | .error e => (db, .err e 500)
    | .ok _media_id =>
      match send with
      | .error e => (db, .err e 500)
      | .ok (result, msg_id) =>
        let db1 :=
          if recordOk then
            record_send c db phone_number
              (some (if user_name == "" then "User" else user_name)) msg_id
          else db
        (db1, .ok result)

/-! ### `GET /admin/day/<day>` -/

/-- The character class of `\x5cd` in this use of Python's `re`, on ASCII
characters — where it is exactly `[0-9]`.  Python's `\x5cd` (no `re.ASCII`
flag) additionally matches every non-ASCII Unicode decimal digit (category
Nd), a set that depends on the runtime's Unicode tables and so is not
determined by this repository; the theorems about `DAY_RE` therefore carry
an all-ASCII hypothesis on the input, under which this class coincides
with the program's. -/
def pyDigit (c : Char) : Bool := c.isDigit

/-- `DAY_RE.match(day)` where `DAY_RE = ^\x5cd{4}-\x5cd{2}-\x5cd{2}$`,
as a predicate on the character list.  Python's `$` (without `re.M`)
matches at the end of the string or just before one final newline, hence
the eleven-character alternative.  Via `pyDigit`, this embedding agrees
with the program's matcher on all-ASCII inputs; the universal theorem
below is stated under that hypothesis. -/
def dayMatchL : List Char → Bool
  | [y1, y2, y3, y4, s1, m1, m2, s2, d1, d2] =>
      pyDigit y1 && pyDigit y2 && pyDigit y3 && pyDigit y4 && s1 == '-' &&
      pyDigit m1 && pyDigit m2 && s2 == '-' && pyDigit d1 && pyDigit d2
  | [y1, y2, y3, y4, s1, m1, m2, s2, d1, d2, nl] =>
      pyDigit y1 && pyDigit y2 && pyDigit y3 && pyDigit y4 && s1 == '-' &&
      pyDigit m1 && pyDigit m2 && s2 == '-' && pyDigit d1 && pyDigit d2 &&
      nl == '\n'
  | _ => false

/-- `admin_day(day)`: `abort(400)` unless `DAY_RE.match(day)`, otherwise
render the day's rows (`rows_by_day(day)`), newest first. -/
def admin_day (db : DB) (day : String) : Except Nat (List DayRow) :=
  if dayMatchL day.data then .ok (rows_by_day db.sent_images day)
  else .error 400

/-! ### The day-string pattern, stated declaratively -/

/-- The day pattern exactly as the spec words it: four digits, a dash, two
digits, a dash, two digits, and nothing else. -/
def DayShapeL (cs : List Char) : Prop :=
  ∃ y1 y2 y3 y4 m1 m2 d1 d2 : Char,
    (pyDigit y1 = true ∧ pyDigit y2 = true ∧ pyDigit y3 = true ∧
     pyDigit y4 = true ∧ pyDigit m1 = true ∧ pyDigit m2 = true ∧
     pyDigit d1 = true ∧ pyDigit d2 = true) ∧
    cs = [y1, y2, y3, y4, '-', m1, m2, '-', d1, d2]

/-- The same pattern followed by exactly one trailing newline, which
Python's `$` anchor also accepts. -/
def DayShapeNLL (cs : List Char) : Prop :=
  ∃ y1 y2 y3 y4 m1 m2 d1 d2 : Char,
    (pyDigit y1 = true ∧ pyDigit y2 = true ∧ pyDigit y3 = true ∧
     pyDigit y4 = true ∧ pyDigit m1 = true ∧ pyDigit m2 = true ∧
     pyDigit d1 = true ∧ pyDigit d2 = true) ∧
    cs = [y1, y2, y3, y4, '-', m1, m2, '-', d1, d2, '\n']

/-! ### Totality and transitivity of the `ORDER BY` comparator -/

theorem lexLe_total : ∀ as bs : List Char, lexLe as bs = true ∨ lexLe bs as = true := by
  intro as
  induction as with
  | nil => intro bs; left; rfl
  | cons a as ih =>
    intro bs
    cases bs with
    | nil => right; rfl
    | cons b bs =>
      by_cases hab : a = b
      · subst hab
        simp only [lexLe, if_pos rfl]
        exact ih bs
      · have hba : ¬ b = a := fun h => hab h.symm
        simp only [lexLe, if_neg hab, if_neg hba, decide_eq_true_eq]
        rcases lt_or_gt_of_ne hab with h | h
        · exact Or.inl h
        · exact Or.inr h

theorem lexLe_trans : ∀ as bs cs : List Char,
    lexLe as bs = true → lexLe bs cs = true → lexLe as cs = true := by
  intro as
  induction as with
  | nil => intro bs cs _ _; rfl
  | cons a as ih =>
    intro bs cs h1 h2
    cases bs with
    | nil => simp [lexLe] at h1
    | cons b bs =>
      cases cs with
      | nil => simp [lexLe] at h2
      | cons c cs =>
        by_cases hab : a = b <;> by_cases hbc : b = c
        · subst hab; subst hbc
          simp only [lexLe, if_pos rfl] at h1 h2 ⊢
          exact ih bs cs h1 h2
        · subst hab
          simp only [lexLe, if_neg hbc, decide_eq_true_eq] at h2
          simp only [lexLe, if_neg hbc, decide_eq_true_eq]
          exact h2
        · subst hbc
          simp only [lexLe, if_neg hab, decide_eq_true_eq] at h1
          simp only [lexLe, if_neg hab, decide_eq_true_eq]
          exact h1
        · simp only [lexLe, if_neg hab, decide_eq_true_eq] at h1
          simp only [lexLe, if_neg hbc, decide_eq_true_eq] at h2
          have hac : a < c := lt_trans h1 h2
          have : ¬ a = c := ne_of_lt hac
          simp only [lexLe, if_neg this, decide_eq_true_eq]
          exact hac

/-! ### Claim theorems -/

/-- C2: a GET verification request with parameters `mode`, `token`,
`challenge` is answered with the challenge value and status 200 exactly when
`mode = "subscribe"` and `token` equals the configured verification secret;
in every other case the answer is `"Forbidden"` with status 403. -/
theorem verification_challenge_iff (vt : String) (mode token : Option String)
    (ch : String) :
    (webhookVerify vt mode token (some ch) = (some ch, 200) ↔
      (mode = some "subscribe" ∧ token = some vt)) ∧
    (¬ (mode = some "subscribe" ∧ token = some vt) →
      webhookVerify vt mode token (some ch) = (some "Forbidden", 403)) := by
  unfold webhookVerify
  have hcond : ((mode == some "subscribe") && (token == some vt)) = true ↔
      (mode = some "subscribe" ∧ token = some vt) := by
    simp [Bool.and_eq_true]
  by_cases h : mode = some "subscribe" ∧ token = some vt
  · rw [if_pos (hcond.mpr h)]
    exact ⟨⟨fun _ => h, fun _ => rfl⟩, fun hn => absurd h hn⟩
  · rw [if_neg (fun hc => h (hcond.mp hc))]
    refine ⟨⟨fun heq => ?_, fun hh => absurd hh h⟩, fun _ => rfl⟩
    have h2 : (403 : Nat) = 200 := congrArg Prod.snd heq
    exact absurd h2 (by decide)

theorem verification_challenge_iff_witness :
    webhookVerify "secret" (some "subscribe") (some "wrong") (some "c") =
      (some "Forbidden", 403) :=
  (verification_challenge_iff "secret" (some "subscribe") (some "wrong")
    "c").2 (by decide)

/-- C3: every POST to `/webhook` — whether the body parses to a vendor
payload or not — is answered `("OK", 200)`, and an unparseable body is
recorded as a single raw best-effort `webhook_events` row of type
`"unknown"` holding the raw body. -/
theorem webhook_post_always_ok (c : Clock) (parsed : Option Payload)
    (raw : String) (db : DB) :
    (webhookPost c parsed raw db).2 = ("OK", 200) ∧
    (webhookPost c none raw db).1.webhook_events =
      db.webhook_events ++
        [{ ts := c.ts, day := c.day, obj := none, entry_id := none,
           change_field := none, event_type := some "unknown",
           message_id := none, status := none, from_wa := none,
           to_wa := none, raw_json := raw }] := by
  refine ⟨?_, rfl⟩
  cases parsed <;> rfl

/-- C7: when the upload and send calls succeed but the optional bookkeeping
step (`init_db(); migrate_db(); record_send(...)`) raises, the endpoint
still returns the vendor send-response JSON as a success and the database is
left untouched. -/
theorem bookkeeping_failure_swallowed (c : Clock) (to_raw : String)
    (name_raw : Option String) (media_id result : String)
    (msg_id : Option String) (db : DB) :
    send_image c true true to_raw name_raw (Except.ok media_id)
      (Except.ok (result, msg_id)) false db = (db, HttpResult.ok result) :=
  rfl

/-- C8: for every day string, the per-day detail query returns exactly the
`sent_images` rows whose `day` equals that string (projected to the selected
columns, as a multiset), ordered most-recent-first by their `ts` value. -/
theorem rows_by_day_exact (tbl : List SentImage) (d : String) :
    (rows_by_day tbl d).Perm ((tbl.filter fun r => r.day == d).map projRow) ∧
    List.Sorted (geBy fun r : DayRow => r.ts) (rows_by_day tbl d) := by
  refine ⟨List.perm_insertionSort _ _, ?_⟩
  haveI : IsTotal DayRow (geBy fun r : DayRow => r.ts) :=
    ⟨fun a b => (lexLe_total b.ts.data a.ts.data).imp
      (fun h => h) (fun h => h)⟩
  haveI : IsTrans DayRow (geBy fun r : DayRow => r.ts) :=
    ⟨fun _ _ _ h1 h2 => lexLe_trans _ _ _ h2 h1⟩
  exact List.sorted_insertionSort _ _

/-- Bridge between the per-day `COUNT(*)` and `List.count` over the `day`
column. -/
theorem filter_day_length_eq_count (tbl : List SentImage) (d : String) :
    (tbl.filter fun r => r.day == d).length =
      (tbl.map fun r => r.day).count d := by
  calc (tbl.filter fun r => r.day == d).length
      = tbl.countP (fun r => r.day == d) :=
        (List.countP_eq_length_filter _ _).symm
    _ = tbl.countP ((fun x => x == d) ∘ fun r => r.day) := rfl
    _ = (tbl.map fun r => r.day).countP (fun x => x == d) :=
        (List.countP_map _ _ _).symm
    _ = (tbl.map fun r => r.day).count d := rfl

/-- C5 (amended): whenever the table has at most `limit_days` distinct days
— in particular always within the first `limit_days` days of operation —
the per-day counts returned by `daily_counts` sum to the total number of
`sent_images` rows.  (The `LIMIT` clause truncates older days beyond
`limit_days`, which is what forces the hypothesis.) -/
theorem daily_counts_sum_of_days_le (tbl : List SentImage) (limit_days : Nat)
    (h : ((tbl.map fun r => r.day).dedup).length ≤ limit_days) :
    ((daily_counts tbl limit_days).map Prod.snd).sum = tbl.length := by
  have hperm : (((tbl.map fun r => r.day).dedup).insertionSort
      (geBy id)).Perm ((tbl.map fun r => r.day).dedup) :=
    List.perm_insertionSort _ _
  have hlen : (((tbl.map fun r => r.day).dedup).insertionSort
      (geBy id)).length ≤ limit_days := by
    rw [hperm.length_eq]; exact h
  show (((((((tbl.map fun r => r.day).dedup).insertionSort
      (geBy id)).take limit_days).map
        (fun d => (d, (tbl.filter fun r => r.day == d).length))).reverse).map
          Prod.snd).sum = tbl.length
  rw [List.take_of_length_le hlen]
  rw [List.map_reverse, List.sum_reverse, List.map_map]
  have hcomp : (Prod.snd ∘ fun d =>
      (d, (tbl.filter fun r => r.day == d).length)) =
      fun d => (tbl.filter fun r => r.day == d).length := rfl
  rw [hcomp]
  rw [(hperm.map fun d => (tbl.filter fun r => r.day == d).length).sum_eq]
  simp only [filter_day_length_eq_count]
  rw [List.sum_map_count_dedup_eq_length]
  exact List.length_map _ _

theorem daily_counts_sum_of_days_le_witness :
    ((daily_counts
      [{ ts := "t1", day := "2024-01-01", phone := "p1", name := none,
         message_id := none, status := none, status_ts := none },
       { ts := "t2", day := "2024-01-02", phone := "p2", name := none,
         message_id := none, status := none, status_ts := none },
       { ts := "t3", day := "2024-01-01", phone := "p3", name := none,
         message_id := none, status := none, status_ts := none }]
      365).map Prod.snd).sum = 3 :=
  daily_counts_sum_of_days_le _ 365 (by decide)

/-- A two-row table with two distinct days, read with `limit_days = 1`:
the `LIMIT` clause drops the older day entirely, so the per-day counts sum
to 1 while the table holds 2 rows.  This refutes C5 as stated (the sum does
not equal the total row count for every table state); the same truncation
occurs at the production `limit_days = 365` once a table spans more than
365 distinct days. -/
theorem daily_counts_sum_claim_cex :
    ¬ (((daily_counts
      [{ ts := "t1", day := "2024-01-01", phone := "p1", name := none,
         message_id := none, status := none, status_ts := none },
       { ts := "t2", day := "2024-01-02", phone := "p2", name := none,
         message_id := none, status := none, status_ts := none }]
      1).map Prod.snd).sum =
      ([{ ts := "t1", day := "2024-01-01", phone := "p1", name := none,
          message_id := none, status := none, status_ts := none },
        { ts := "t2", day := "2024-01-02", phone := "p2", name := none,
          message_id := none, status := none, status_ts := none }] :
        List SentImage).length) := by
  decide

/-- C1: processing an inbound status item that carries a (non-empty)
`message_id` and a status appends exactly one `webhook_events` row for the
item; every `sent_images` row bearing that `message_id` gets its `status`
and `status_ts` overwritten with the item's values; and when no row bears
it, the `sent_images` table is left completely unchanged. -/
theorem status_event_effects (c : Clock) (obj entry_id field : Option String)
    (raw : String) (st : StatusItem) (mid : String) (db : DB)
    (hid : st.id = some mid) (hne : mid ≠ "") :
    (processStatusItem c obj entry_id field raw st db).webhook_events =
      db.webhook_events ++
        [{ ts := c.ts, day := c.day, obj := obj, entry_id := entry_id,
           change_field := field, event_type := some "status",
           message_id := st.id, status := st.status, from_wa := none,
           to_wa := st.recipient_id, raw_json := raw }] ∧
    (∀ i : Nat, ∀ r : SentImage, db.sent_images[i]? = some r →
      r.message_id = some mid →
      (processStatusItem c obj entry_id field raw st db).sent_images[i]? =
        some { r with status := st.status, status_ts := st.status_ts }) ∧
    ((∀ r ∈ db.sent_images, r.message_id ≠ some mid) →
      (processStatusItem c obj entry_id field raw st db).sent_images =
        db.sent_images) := by
  have hfalsy : pyFalsy st.id = false := by
    rw [hid]; simpa [pyFalsy] using hne
  refine ⟨?_, ?_, ?_⟩
  · simp [processStatusItem, insert_webhook_event,
      update_status_by_message_id, hfalsy]
  · intro i r hget hmid
    simp only [processStatusItem, insert_webhook_event,
      update_status_by_message_id, hfalsy, Bool.false_eq_true, if_false]
    rw [List.getElem?_map, hget]
    simp [hid, hmid]
  · intro hnone
    simp only [processStatusItem, insert_webhook_event,
      update_status_by_message_id, hfalsy, Bool.false_eq_true, if_false]
    have hfix : ∀ r ∈ db.sent_images,
        (if r.message_id == st.id then
          { r with status := st.status, status_ts := st.status_ts }
        else r) = id r := by
      intro r hr
      have : (r.message_id == st.id) = false := by
        rw [hid]
        exact beq_eq_false_iff_ne.mpr (hnone r hr)
      simp [this]
    rw [List.map_congr_left hfix, List.map_id]

theorem status_event_effects_witness :
    (processStatusItem ⟨"T", "D"⟩ none none none "raw"
      ⟨some "w1", some "delivered", some "S", some "155"⟩
      ⟨[⟨"t0", "2024-01-01", "p", none, some "w1", none, none⟩],
       []⟩).sent_images[0]? =
      some ⟨"t0", "2024-01-01", "p", none, some "w1", some "delivered",
        some "S"⟩ :=
  (status_event_effects ⟨"T", "D"⟩ none none none "raw"
    ⟨some "w1", some "delivered", some "S", some "155"⟩ "w1"
    ⟨[⟨"t0", "2024-01-01", "p", none, some "w1", none, none⟩], []⟩
    rfl (by decide)).2.1 0
    ⟨"t0", "2024-01-01", "p", none, some "w1", none, none⟩ rfl rfl

/-- C9: a status update with a non-empty `message_id` rewrites every
`sent_images` row carrying that `message_id` (the column is only indexed,
not unique, so several rows may match); each matching row changes only in
`status` and `status_ts`, every other row is untouched, and the table's
length (and the `webhook_events` table) is preserved. -/
theorem update_status_frame (db : DB) (mid : String) (st sts : Option String)
    (hne : mid ≠ "") :
    (update_status_by_message_id db (some mid) st sts).webhook_events =
      db.webhook_events ∧
    (update_status_by_message_id db (some mid) st sts).sent_images.length =
      db.sent_images.length ∧
    (∀ i : Nat, ∀ r : SentImage, db.sent_images[i]? = some r →
      (update_status_by_message_id db (some mid) st sts).sent_images[i]? =
        some (if r.message_id = some mid then
          { r with status := st, status_ts := sts }
        else r)) := by
  have hfalsy : pyFalsy (some mid) = false := by
    simpa [pyFalsy] using hne
  refine ⟨?_, ?_, ?_⟩
  · simp [update_status_by_message_id, hfalsy]
  · simp [update_status_by_message_id, hfalsy]
  · intro i r hget
    simp only [update_status_by_message_id, hfalsy, Bool.false_eq_true,
      if_false]
    rw [List.getElem?_map, hget]
    by_cases h : r.message_id = some mid <;> simp [h]

theorem update_status_frame_witness :
    (update_status_by_message_id
      ⟨[⟨"t1", "d", "p1", none, some "w", none, none⟩,
        ⟨"t2", "d", "p2", none, some "w", none, none⟩], []⟩
      (some "w") (some "read") (some "S")).sent_images[1]? =
      some ⟨"t2", "d", "p2", none, some "w", some "read", some "S"⟩ := by
  have h := (update_status_frame
    ⟨[⟨"t1", "d", "p1", none, some "w", none, none⟩,
      ⟨"t2", "d", "p2", none, some "w", none, none⟩], []⟩
    "w" (some "read") (some "S") (by decide)).2.2 1
    ⟨"t2", "d", "p2", none, some "w", none, none⟩ rfl
  simpa using h

/-- C10: a status update whose `message_id` is missing (`None`) or empty
(`""`) leaves the `sent_images` table completely unchanged, and rows whose
stored `message_id` is NULL are never modified by any status update. -/
theorem update_status_falsy_noop (db : DB) (st sts : Option String) :
    update_status_by_message_id db none st sts = db ∧
    update_status_by_message_id db (some "") st sts = db ∧
    (∀ mid : Option String, ∀ i : Nat, ∀ r : SentImage,
      db.sent_images[i]? = some r → r.message_id = none →
      (update_status_by_message_id db mid st sts).sent_images[i]? =
        some r) := by
  refine ⟨?_, ?_, ?_⟩
  · rfl
  · rfl
  intro mid i r hget hnull
  cases hf : pyFalsy mid with
  | true => simp only [update_status_by_message_id, hf, if_true]; exact hget
  | false =>
    cases mid with
    | none => simp [pyFalsy] at hf
    | some m =>
      simp only [update_status_by_message_id, hf, Bool.false_eq_true,
        if_false]
      rw [List.getElem?_map, hget]
      simp [hnull]

theorem update_status_falsy_noop_witness :
    (update_status_by_message_id
      ⟨[⟨"t", "d", "p", none, none, none, none⟩], []⟩
      (some "m") (some "read") none).sent_images[0]? =
      some ⟨"t", "d", "p", none, none, none, none⟩ :=
  (update_status_falsy_noop
    ⟨[⟨"t", "d", "p", none, none, none, none⟩], []⟩
    (some "read") none).2.2 (some "m") 0
    ⟨"t", "d", "p", none, none, none, none⟩ rfl rfl

/-- C4 (amended): a send-image request whose upload and send calls succeed
and whose (optional, failure-swallowing) bookkeeping write goes through
returns the vendor send-response JSON and appends exactly one `sent_images`
row; its `phone` column is the stripped `to` field — a `NOT NULL` `TEXT`
value, non-null by construction. -/
theorem send_success_record (c : Clock) (to_raw : String)
    (name_raw : Option String) (media_id result : String)
    (msg_id : Option String) (db : DB) :
    send_image c true true to_raw name_raw (Except.ok media_id)
      (Except.ok (result, msg_id)) true db =
      ({ db with sent_images := db.sent_images ++
          [{ ts := c.ts, day := c.day, phone := pyStrip to_raw,
             name := some (if pyStrip (name_raw.getD "") == "" then "User"
               else pyStrip (name_raw.getD "")),
             message_id := msg_id, status := none, status_ts := none }] },
       HttpResult.ok result) := by
  cases hc : pyStrip (name_raw.getD "") == "" <;>
    simp [send_image, record_send, hc]

/-- C4 is false as stated: when the bookkeeping write raises (the source
swallows and merely prints the error), the endpoint still returns the
vendor send-response as a success, yet no `sent_images` row exists
afterwards — not exactly one. -/
theorem send_success_claim_cex :
    (send_image ⟨"T", "D"⟩ true true "1555" none (Except.ok "m1")
      (Except.ok ("resp", some "w1")) false ⟨[], []⟩).2 =
      HttpResult.ok "resp" ∧
    (send_image ⟨"T", "D"⟩ true true "1555" none (Except.ok "m1")
      (Except.ok ("resp", some "w1")) false ⟨[], []⟩).1.sent_images = [] :=
  ⟨rfl, rfl⟩

theorem dayMatchL_iff (cs : List Char) :
    dayMatchL cs = true ↔ DayShapeL cs ∨ DayShapeNLL cs := by
  match cs with
  | [] => simp [show dayMatchL [] = false from rfl, DayShapeL, DayShapeNLL]
  | [a1] =>
      simp [show dayMatchL [a1] = false from rfl, DayShapeL, DayShapeNLL]
  | [a1, a2] =>
      simp [show dayMatchL [a1, a2] = false from rfl, DayShapeL, DayShapeNLL]
  | [a1, a2, a3] =>
      simp [show dayMatchL [a1, a2, a3] = false from rfl, DayShapeL,
        DayShapeNLL]
  | [a1, a2, a3, a4] =>
      simp [show dayMatchL [a1, a2, a3, a4] = false from rfl, DayShapeL,
        DayShapeNLL]
  | [a1, a2, a3, a4, a5] =>
      simp [show dayMatchL [a1, a2, a3, a4, a5] = false from rfl, DayShapeL,
        DayShapeNLL]
  | [a1, a2, a3, a4, a5, a6] =>
      simp [show dayMatchL [a1, a2, a3, a4, a5, a6] = false from rfl,
        DayShapeL, DayShapeNLL]
  | [a1, a2, a3, a4, a5, a6, a7] =>
      simp [show dayMatchL [a1, a2, a3, a4, a5, a6, a7] = false from rfl,
        DayShapeL, DayShapeNLL]
  | [a1, a2, a3, a4, a5, a6, a7, a8] =>
      simp [show dayMatchL [a1, a2, a3, a4, a5, a6, a7, a8] = false from rfl,
        DayShapeL, DayShapeNLL]
  | [a1, a2, a3, a4, a5, a6, a7, a8, a9] =>
      simp [show dayMatchL [a1, a2, a3, a4, a5, a6, a7, a8, a9] = false from
        rfl, DayShapeL, DayShapeNLL]
  | [a1, a2, a3, a4, a5, a6, a7, a8, a9, a10] =>
      simp [dayMatchL, DayShapeL, DayShapeNLL, Bool.and_eq_true, beq_iff_eq]
      constructor
      · rintro ⟨⟨⟨⟨⟨⟨⟨⟨⟨h1, h2⟩, h3⟩, h4⟩, h5⟩, h6⟩, h7⟩, h8⟩, h9⟩, h10⟩
        exact ⟨a1, a2, a3, a4, a6, a7, a9, a10,
          ⟨h1, h2, h3, h4, h6, h7, h9, h10⟩,
          rfl, rfl, rfl, rfl, h5, rfl, rfl, h8, rfl, rfl⟩
      · rintro ⟨y1, y2, y3, y4, m1, m2, d1, d2,
          ⟨g1, g2, g3, g4, g5, g6, g7, g8⟩,
          e1, e2, e3, e4, e5, e6, e7, e8, e9, e10⟩
        subst e1; subst e2; subst e3; subst e4; subst e5
        subst e6; subst e7; subst e8; subst e9; subst e10
        exact ⟨⟨⟨⟨⟨⟨⟨⟨⟨g1, g2⟩, g3⟩, g4⟩, rfl⟩, g5⟩, g6⟩, rfl⟩, g7⟩, g8⟩
  | [a1, a2, a3, a4, a5, a6, a7, a8, a9, a10, a11] =>
      simp [dayMatchL, DayShapeL, DayShapeNLL, Bool.and_eq_true, beq_iff_eq]
      constructor
      · rintro ⟨⟨⟨⟨⟨⟨⟨⟨⟨⟨h1, h2⟩, h3⟩, h4⟩, h5⟩, h6⟩, h7⟩, h8⟩, h9⟩,
          h10⟩, h11⟩
        exact ⟨a1, a2, a3, a4, a6, a7, a9, a10,
          ⟨h1, h2, h3, h4, h6, h7, h9, h10⟩,
          rfl, rfl, rfl, rfl, h5, rfl, rfl, h8, rfl, rfl, h11⟩
      · rintro ⟨y1, y2, y3, y4, m1, m2, d1, d2,
          ⟨g1, g2, g3, g4, g5, g6, g7, g8⟩,
          e1, e2, e3, e4, e5, e6, e7, e8, e9, e10, e11⟩
        subst e1; subst e2; subst e3; subst e4; subst e5; subst e6
        subst e7; subst e8; subst e9; subst e10; subst e11
        exact ⟨⟨⟨⟨⟨⟨⟨⟨⟨⟨g1, g2⟩, g3⟩, g4⟩, rfl⟩, g5⟩, g6⟩, rfl⟩, g7⟩,
          g8⟩, rfl⟩
  | a1 :: a2 :: a3 :: a4 :: a5 :: a6 :: a7 :: a8 :: a9 :: a10 :: a11 ::
      a12 :: rest =>
      simp [show dayMatchL (a1 :: a2 :: a3 :: a4 :: a5 :: a6 :: a7 :: a8 ::
        a9 :: a10 :: a11 :: a12 :: rest) = false from rfl, DayShapeL,
        DayShapeNLL]

/-- C6 (amended): for every day string made of ASCII characters, the
day-detail endpoint rejects it with 400 exactly when it is neither a strict
`YYYY-MM-DD`-shaped string (four digits, dash, two digits, dash, two
digits, nothing else) nor such a string followed by one trailing newline;
every other ASCII string is served.  The newline form is admitted because
Python's `$` anchor matches before a final newline.  The ASCII hypothesis
marks the domain on which the embedded digit class is exactly the
program's: Python's `\x5cd` additionally admits non-ASCII Unicode decimal
digits, a runtime-dependent set outside this hypothesis. -/
theorem admin_day_reject_iff (db : DB) (day : String)
    (_hascii : ∀ c ∈ day.data, c.toNat < 128) :
    admin_day db day = Except.error 400 ↔
      ¬ (DayShapeL day.data ∨ DayShapeNLL day.data) := by
  have hiff := dayMatchL_iff day.data
  cases hb : dayMatchL day.data with
  | true =>
    have hsh : DayShapeL day.data ∨ DayShapeNLL day.data := hiff.mp hb
    simp [admin_day, hb, hsh]
  | false =>
    have hsh : ¬ (DayShapeL day.data ∨ DayShapeNLL day.data) := by
      intro hs
      have hcontra := hiff.mpr hs
      rw [hb] at hcontra
      exact Bool.false_ne_true hcontra
    simp [admin_day, hb, hsh]

theorem admin_day_reject_iff_witness :
    ¬ (DayShapeL "hello".data ∨ DayShapeNLL "hello".data) :=
  (admin_day_reject_iff ⟨[], []⟩ "hello" (by decide)).mp rfl

/-- C6 is false as stated: the string made of `"2024-01-01"` followed by a
newline character does not match the strict 4-2-2 pattern (it carries an
extra character), yet `DAY_RE.match` accepts it — Python's `$` matches
before a final newline — so `admin_day` serves it instead of rejecting it
with 400. -/
theorem admin_day_strict_claim_cex :
    admin_day ⟨[], []⟩ "2024-01-01\n" ≠ Except.error 400 ∧
    ¬ DayShapeL "2024-01-01\n".data := by
  constructor
  · intro h
    rw [show admin_day ⟨[], []⟩ "2024-01-01\n" =
        Except.ok (rows_by_day [] "2024-01-01\n") from rfl] at h
    exact Except.noConfusion h
  · rintro ⟨y1, y2, y3, y4, m1, m2, d1, d2, -, heq⟩
    have h11 : ("2024-01-01\n".data).length = 11 := rfl
    have h10 : ([y1, y2, y3, y4, '-', m1, m2, '-', d1, d2] :
        List Char).length = 10 := rfl
    rw [heq, h10] at h11
    exact absurd h11 (by decide)

end WhatsBot
